import Mathlib

/-!
Verification development for the Jira agent's authentication and resilient
API access layer (`adk_jsm_agent/agent/auth.py` and
`adk_jsm_agent/agent/jira_issues.py`).

The Python functions are shallowly embedded: dictionaries and JSON bodies
become a `JSON` value type, the per-session key-value state becomes an
explicit `SessionState` record threaded through the functions, the HTTP
client and the ADK consent/refresh capabilities become injected parameters,
and an exception escaping a function is represented by the `Except.error`
branch of the result.
-/

set_option maxHeartbeats 1000000

/-- JSON-like values: Python dictionaries, lists, strings, integers,
booleans and `None`, as they flow through the agent code. -/
inductive JSON where
  | null : JSON
  | bool (b : Bool) : JSON
  | num (n : Int) : JSON
  | str (s : String) : JSON
  | arr (xs : List JSON) : JSON
  | obj (fields : List (String × JSON)) : JSON

/-- Dictionary lookup: `d.get(k)` on a Python dict (None when the value is
not a dict or the key is absent). -/
def JSON.get : JSON → String → Option JSON
  | .obj fields, key => fields.lookup key
  | _, _ => none

/-- Dictionary lookup with default: `d.get(k, default)`. -/
def JSON.getD (j : JSON) (key : String) (d : JSON) : JSON :=
  (j.get key).getD d

/-- Python truthiness of a JSON value (`bool(v)`): `None`, `False`, `0`,
`""`, `[]` and `{}` are falsy. -/
def JSON.truthy : JSON → Bool
  | .null => false
  | .bool b => b
  | .num n => n != 0
  | .str s => !s.isEmpty
  | .arr xs => !xs.isEmpty
  | .obj fields => !fields.isEmpty

/-- Model of `ResultsSuccess(data)` from `auth.py`: the dict
`{"status": "success", "data": data}`. -/
def ResultsSuccess (data : JSON) : JSON :=
  .obj [("status", .str "success"), ("data", data)]

/-- Model of `ResultsSuccess()` with no payload: `data` is `None`. -/
def ResultsSuccessEmpty : JSON := ResultsSuccess .null

/-- Model of `ResultsError(message)` from `auth.py`: the dict
`{"status": "error", "message": message}`. -/
def ResultsError (message : String) : JSON :=
  .obj [("status", .str "error"), ("message", .str message)]

/-- Model of `ResultsPending()` from `auth.py`: the dict
`{"pending": True, "message": "Awaiting user authentication."}`. -/
def ResultsPending : JSON :=
  .obj [("pending", .bool true), ("message", .str "Awaiting user authentication.")]

/-- Model of `is_success(d)` from `auth.py`: `"status" in d and d["status"] == "success"`. -/
def is_success (d : JSON) : Bool :=
  match d.get "status" with
  | some (.str s) => s == "success"
  | some _ => false
  | none => false

/-- Auxiliary check for `mentions`: does `needle` occur as a contiguous run in `hay`? -/
def hasSubAux (needle : List Char) : List Char → Bool
  | [] => List.isPrefixOf needle []
  | c :: cs => List.isPrefixOf needle (c :: cs) || hasSubAux needle cs

/-- Whether the string `needle` occurs inside the string `hay` (used to state
what an error message does or does not mention). -/
def mentions (hay needle : String) : Bool :=
  hasSubAux needle.data hay.data

/-- An OAuth2 credential as far as this layer inspects it: the
`AuthCredential` objects of the ADK are only read through
`creds.oauth2.access_token`, so the embedding keeps just that field.
Serialization (`model_dump_json`) and parsing of a value produced by it
(`model_validate_json`) are the identity on this record. -/
structure Cred where
  access_token : Option String
deriving DecidableEq, Repr

/-- Model of Python's repr of a credential, used only inside an error
message whose exact text no claim depends on. -/
def credStr (c : Cred) : String :=
  match c.access_token with
  | some t => "AuthCredential(access_token=" ++ t ++ ")"
  | none => "AuthCredential(access_token=None)"

/-- The injected ADK capabilities consumed by `_refresh_credentials`
(`OAuth2CredentialRefresher`, `tool_context.get_auth_response`,
`tool_context.request_credential`), abstracted as data:
`isRefreshNeeded` is the refresher's answer for the stored credential,
`refreshResult` is the result of `refresher.refresh` (`Except.error` is a
raised exception, caught by the `except` clause), and `authResponse` is the
already-granted credential returned by `get_auth_response` (absent when the
user has not completed consent). -/
structure OAuthEnv where
  isRefreshNeeded : Bool
  refreshResult : Except String Cred
  authResponse : Option Cred

/-- Result of one execution of `_refresh_credentials`: the returned
`ResultsDict`, the value of the `jra_agent_token` state key afterwards
(`none` models both an absent key and a key set to `None`), and whether
`request_credential` was invoked. -/
structure RefreshOut where
  result : JSON
  store : Option Cred
  consentRequested : Bool

/-- Model of `_refresh_credentials` from `auth.py`, lines 73-114, with the session's
`TOKEN_CACHE` entry passed and returned explicitly.  Stored credentials are
serialized pydantic models, hence nonempty strings, so the Python guard
`if auth_cred` holds exactly when the entry is present and non-`None`;
parsing a value that was produced by `model_dump_json` succeeds. -/
def refresh_credentials (env : OAuthEnv) (store : Option Cred) : RefreshOut :=
  match store with
  | some creds =>
    if env.isRefreshNeeded then
      match env.refreshResult with
      | .ok newCreds => ⟨ResultsSuccessEmpty, some newCreds, false⟩
      | .error _ => ⟨ResultsSuccessEmpty, none, false⟩
    else ⟨ResultsSuccessEmpty, some creds, false⟩
  | none =>
    match env.authResponse with
    | some granted => ⟨ResultsSuccessEmpty, some granted, false⟩
    | none => ⟨ResultsPending, none, true⟩

/-- The per-session key-value state (`tool_context.state`) as read and
written by `auth.py`: `tempTokens` is the lookup of the `"temp:" + auth_id`
keys holding platform-delegated tokens, `tokenCache` is the
`jra_agent_token` entry (a serialized credential; `none` models both an
absent key and a key set to `None`), `instanceCache` is the
`jira_instance_cache` entry.  The ADK `State` object defines no
`__bool__`/`__len__`, so the Python guard `tool_context.state` is truthy
whenever a context exists; the embedding therefore only distinguishes
whether a `ToolContext` is present. -/
structure SessionState where
  tempTokens : String → Option String
  tokenCache : Option Cred
  instanceCache : Option JSON

/-- The process environment variables consulted by `auth.py`, each `none`
when unset, together with the injected OAuth capabilities. -/
structure Env where
  agentspace_auth_id : Option String
  jira_username : Option String
  jira_api_token : Option String
  jira_instance : Option String
  oauth : OAuthEnv

/-- Truthiness of `os.getenv(...)`: set and nonempty. -/
def getenvTruthy : Option String → Bool
  | some s => !s.isEmpty
  | none => false

/-- Outcome of `client.request(...)` followed by `raise_for_status()`:
a 2xx response with its decoded body (`none` when `response.text` is
empty), a non-2xx status (`raise_for_status` raises `HTTPStatusError`
carrying `message`), or a transport-level failure such as a connection
error or timeout (`client.request` raises an `httpx.RequestError`
carrying `message`, which is not an `HTTPStatusError`). -/
inductive HttpResponse where
  | ok (body : Option JSON) : HttpResponse
  | statusError (message : String) : HttpResponse
  | transportError (message : String) : HttpResponse

/-- The network, abstracted: the response the server gives to a request,
keyed by method, endpoint and path. -/
def Http := String → String → String → HttpResponse

/-- The credential strategy `_api_call` ends up using for one call. -/
inductive AuthStrategy where
  | delegated (token : String) : AuthStrategy
  | pat (username token : String) : AuthStrategy
  | oauth : AuthStrategy
deriving DecidableEq, Repr

/-- The delegated token looked up by `_api_call` lines 128-133:
`tool_context.state.get("temp:" + auth_id)` when `AGENTSPACE_AUTH_ID` is
set (truthy) and a tool context is present. -/
def delegated_token (env : Env) (ctx : Option SessionState) : Option String :=
  match env.agentspace_auth_id, ctx with
  | some authId, some st => if authId.isEmpty then none else st.tempTokens ("temp:" ++ authId)
  | _, _ => none

/-- The `elif os.getenv("JIRA_USERNAME") and os.getenv("JIRA_API_TOKEN"): ... else:`
part of `_api_call` lines 141-148, reached when no delegated token was
found: static PAT Basic auth when both variables are set and nonempty,
managed OAuth otherwise. -/
def pat_or_oauth (env : Env) : AuthStrategy :=
  match env.jira_username, env.jira_api_token with
  | some u, some p => if u.isEmpty || p.isEmpty then .oauth else .pat u p
  | _, _ => .oauth

/-- The strategy selection of `_api_call` lines 128-148: the
`if token: ... elif JIRA_USERNAME and JIRA_API_TOKEN: ... else:` chain
(`if token` is Python truthiness, so an empty-string token falls through). -/
def select_strategy (env : Env) (ctx : Option SessionState) : AuthStrategy :=
  match delegated_token env ctx with
  | some t => if t.isEmpty then pat_or_oauth env else .delegated t
  | none => pat_or_oauth env

/-- Exception message of pydantic's `model_validate_json(None)`, raised at
`auth.py` line 158 when the token cache was cleared: the input to
validation must be a string. -/
def validationErrorMsg : String :=
  "ValidationError: JSON input should be string, bytes or bytearray"

/-- The request/response tail of `_api_call`, lines 164-178: issue the
request, return `Success` with the decoded body (the empty dict when the
body is empty), catch only `httpx.HTTPStatusError` and turn it into an
`Error` naming the endpoint; any other exception (in particular transport
errors raised by `client.request`) escapes as `Except.error`.  The result
carries the session state and the number of HTTP requests issued. -/
def doRequest (http : Http) (method endpoint path : String) (ctx : Option SessionState) :
    Except String (JSON × Option SessionState × Nat) :=
  match http method endpoint path with
  | .ok (some body) => .ok (ResultsSuccess body, ctx, 1)
  | .ok none => .ok (ResultsSuccess (.obj []), ctx, 1)
  | .statusError msg =>
    .ok (ResultsError ("An error occurred while calling Jira API endpoint " ++ endpoint ++ ": " ++ msg), ctx, 1)
  | .transportError msg => .error msg

/-- Model of `_api_call` from `auth.py`, lines 117-178.  The OAuth branch runs
`_refresh_credentials`, returns its outcome unless successful, then parses
the token cache with `model_validate_json` — which raises (escaping the
function) when the cache entry is `None`, as happens after a failed
refresh — and finally requires a nonempty access token. -/
def api_call (env : Env) (http : Http) (ctx : Option SessionState)
    (method endpoint path : String) :
    Except String (JSON × Option SessionState × Nat) :=
  match select_strategy env ctx with
  | .delegated _ => doRequest http method endpoint path ctx
  | .pat _ _ => doRequest http method endpoint path ctx
  | .oauth =>
    match ctx with
    | none => .ok (ResultsError "no tool_context when running in OAuth mode", none, 0)
    | some st =>
      let r := refresh_credentials env.oauth st.tokenCache
      let st' : SessionState := { st with tokenCache := r.store }
      if is_success r.result then
        match r.store with
        | none => .error validationErrorMsg
        | some creds =>
          match creds.access_token with
          | some t =>
            if t.isEmpty then
              .ok (ResultsError ("no credentials when running in OAuth mode only " ++ credStr creds), some st', 0)
            else doRequest http method endpoint path (some st')
          | none =>
            .ok (ResultsError ("no credentials when running in OAuth mode only " ++ credStr creds), some st', 0)
      else .ok (r.result, some st', 0)

/-- The dict comprehension of `auth_list_jira_instances` lines 274-280:
`{k["url"]: {"id": k["id"], "name": k["name"]} for k in r["data"]}`. -/
def buildInstanceCache (data : JSON) : JSON :=
  match data with
  | .arr ks =>
    .obj (ks.map fun k =>
      (match k.get "url" with
       | some (.str u) => u
       | _ => "",
       JSON.obj [("id", k.getD "id" .null), ("name", k.getD "name" .null)]))
  | _ => .obj []

/-- Model of `auth_list_jira_instances` from `auth.py`, lines 227-283: short-circuit
on a statically configured `JIRA_INSTANCE`; otherwise require a tool
context; return the cached instance map when the `jira_instance_cache`
entry is truthy (present and a nonempty dict), issuing no request;
otherwise fetch the accessible resources once, propagate a non-success
outcome unchanged, and cache the rebuilt map. -/
def auth_list_jira_instances (env : Env) (http : Http) (ctx : Option SessionState) :
    Except String (JSON × Option SessionState × Nat) :=
  if getenvTruthy env.jira_instance then
    .ok (ResultsSuccess (.obj [(env.jira_instance.getD "",
          .obj [("id", .null), ("name", .str "")])]), ctx, 0)
  else
    match ctx with
    | none => .ok (ResultsError "no tool_context when running in OAuth mode", none, 0)
    | some st =>
      if ((st.instanceCache.getD .null).truthy : Bool) then
        .ok (ResultsSuccess (st.instanceCache.getD .null), some st, 0)
      else
        match api_call env http (some st) "GET" "https://api.atlassian.com" "/oauth/token/accessible-resources" with
        | .error e => .error e
        | .ok (r, ctx', n) =>
          if is_success r then
            let newCache := buildInstanceCache (r.getD "data" .null)
            match ctx' with
            | some st' => .ok (ResultsSuccess newCache, some { st' with instanceCache := some newCache }, n)
            | none => .ok (ResultsSuccess newCache, none, n)
          else .ok (r, ctx', n)

/-- The error message of `jira_api_call` line 316 — in the source the
braces are *not* interpolated (the string literal lacks the `f` prefix),
so the message is this exact template text. -/
def unknownInstanceMsg : String :=
  "Jira instance \x7bjira_instance\x7d not in list \x7b\x27, \x27.join(r[\x27data\x27].keys())\x7d"

/-- Model of `jira_api_call` from `auth.py`, lines 286-328: list the instances,
propagate a non-success outcome, fail when the requested instance is not a
key of the returned map, and otherwise call the instance's endpoint (the
canonical proxy URL when the cached `id` is truthy, the instance reference
itself otherwise). -/
def jira_api_call (env : Env) (http : Http) (ctx : Option SessionState)
    (jira_instance : String) (method path : String) :
    Except String (JSON × Option SessionState × Nat) :=
  match auth_list_jira_instances env http ctx with
  | .error e => .error e
  | .ok (r, ctx', n) =>
    if is_success r then
      match (r.getD "data" .null).get jira_instance with
      | none => .ok (ResultsError unknownInstanceMsg, ctx', n)
      | some entry =>
        let endpoint :=
          match entry.get "id" with
          | some (.str s) => if s.isEmpty then jira_instance else "https://api.atlassian.com/ex/jira/" ++ s
          | _ => jira_instance
        match api_call env http ctx' method endpoint path with
        | .error e => .error e
        | .ok (res, ctx'', n2) => .ok (res, ctx'', n + n2)
    else .ok (r, ctx', n)

/-- Extraction `data["data"].get("issues", [])` from `list_jira_issues`
line 117 (page bodies served by the API carry their items as a JSON
array). -/
def getIssues (body : JSON) : List JSON :=
  match body.get "issues" with
  | some (.arr xs) => xs
  | _ => []

/-- Extraction `data["data"].get("total", 0)` from `list_jira_issues`
line 120 (the totals served by the API are integers). -/
def getTotal (body : JSON) : Int :=
  match body.get "total" with
  | some (.num n) => n
  | _ => 0

/-- Extraction `data["data"].get("values", [])` from
`list_jsm_service_projects` line 408. -/
def getValues (body : JSON) : List JSON :=
  match body.get "values" with
  | some (.arr xs) => xs
  | _ => []

/-- Body of the `while True` loop of `list_jira_issues`, lines 104-123.
`fetch start_at` is the outcome dict of
`jira_api_call(..., "/rest/api/3/search", params={.., "startAt": start_at, ..})`.
The Python loop has no built-in bound, so the embedding takes a fuel
argument and returns `none` when the loop has not finished within `fuel`
iterations; `list_jira_issues fetch fuel = none` for every `fuel` means the
source loop never terminates. -/
def list_jira_issues_loop (fetch : Nat → JSON) : Nat → Nat → List JSON → Option JSON
  | 0, _, _ => none
  | fuel + 1, start_at, all_issues =>
    let data := fetch start_at
    if is_success data then
      let issues := getIssues (data.getD "data" .null)
      let acc := all_issues ++ issues
      if (start_at : Int) + issues.length ≥ getTotal (data.getD "data" .null) then
        some (.obj [("status", .str "success"), ("data", .arr acc)])
      else
        list_jira_issues_loop fetch fuel (start_at + issues.length) acc
    else
      some data

/-- Model of `list_jira_issues` from `jira_issues.py`, lines 81-128:
start at offset 0 with an empty accumulator. -/
def list_jira_issues (fetch : Nat → JSON) (fuel : Nat) : Option JSON :=
  list_jira_issues_loop fetch fuel 0 []

/-- Body of the `while True` loop of `list_jsm_service_projects`, lines
395-414.  Note line 411 of the source reads the flag as
`data.get("isLastPage", True)` where `data` is the *outcome wrapper*
`{"status": ..., "data": ...}` returned by `jira_api_call`, not the
response body `data["data"]`. -/
def list_jsm_service_projects_loop (fetch : Nat → JSON) : Nat → Nat → List JSON → Option JSON
  | 0, _, _ => none
  | fuel + 1, start, all_projects =>
    let data := fetch start
    if is_success data then
      let projects_data := getValues (data.getD "data" .null)
      let acc := all_projects ++ projects_data
      if (data.getD "isLastPage" (.bool true)).truthy then
        some (.obj [("status", .str "success"), ("data", .arr acc)])
      else
        list_jsm_service_projects_loop fetch fuel (start + projects_data.length) acc
    else
      some data

/-- Model of `list_jsm_service_projects` from `jira_issues.py`, lines
361-419: start at offset 0 with an empty accumulator. -/
def list_jsm_service_projects (fetch : Nat → JSON) (fuel : Nat) : Option JSON :=
  list_jsm_service_projects_loop fetch fuel 0 []

/-- Item list of the page the server serves at a given offset, as
`list_jira_issues` extracts it. -/
def pageIssues (fetch : Nat → JSON) (s : Nat) : List JSON :=
  getIssues ((fetch s).getD "data" .null)

/-- Reported total of the page the server serves at a given offset, as
`list_jira_issues` extracts it. -/
def pageTotal (fetch : Nat → JSON) (s : Nat) : Int :=
  getTotal ((fetch s).getD "data" .null)

/-- One successful iteration of the `list_jira_issues` loop that reaches
the break: the loop returns the success dict with everything accumulated
so far. -/
theorem list_jira_issues_loop_break (fetch : Nat → JSON) (fuel start : Nat) (acc : List JSON)
    (hs : is_success (fetch start) = true)
    (hb : (start : Int) + (pageIssues fetch start).length ≥ pageTotal fetch start) :
    list_jira_issues_loop fetch (fuel + 1) start acc =
      some (.obj [("status", .str "success"), ("data", .arr (acc ++ pageIssues fetch start))]) := by
  simp only [list_jira_issues_loop, hs, if_true, pageIssues, pageTotal] at *
  rw [if_pos hb]

/-- One successful iteration of the `list_jira_issues` loop that does not
reach the break: the loop recurses with the offset advanced by the page's
issue count. -/
theorem list_jira_issues_loop_continue (fetch : Nat → JSON) (fuel start : Nat) (acc : List JSON)
    (hs : is_success (fetch start) = true)
    (hb : (start : Int) + (pageIssues fetch start).length < pageTotal fetch start) :
    list_jira_issues_loop fetch (fuel + 1) start acc =
      list_jira_issues_loop fetch fuel (start + (pageIssues fetch start).length)
        (acc ++ pageIssues fetch start) := by
  simp only [list_jira_issues_loop, hs, if_true, pageIssues, pageTotal] at *
  rw [if_neg (not_le.mpr hb)]

/-- An HTTP server that always answers 2xx with an empty dict body; used in
scenarios whose claims never reach the network. -/
def httpAlwaysOk : Http := fun _ _ _ => .ok (some (.obj []))

/-- An OAuth environment whose injected capabilities are never consulted in
the scenario at hand. -/
def oauthUnused : OAuthEnv := ⟨false, .error "", none⟩

/-- Scenario for the refresh-failure claim: a credential is stored, the
refresher reports that a refresh is needed, and the refresh attempt raises
(revoked refresh token). -/
def c1Oauth : OAuthEnv := ⟨true, .error "invalid_grant: refresh token revoked", none⟩

/-- The stored credential of the refresh-failure scenario. -/
def c1Cred : Cred := ⟨some "old-access-token"⟩

/-- Process environment of the refresh-failure scenario: no delegated-token
configuration, no PAT variables, no static instance, so the OAuth path is
taken. -/
def c1Env : Env := ⟨none, none, none, none, c1Oauth⟩

/-- Session state of the refresh-failure scenario: the token cache holds
the stale credential. -/
def c1State : SessionState := ⟨fun _ => none, some c1Cred, none⟩

/-- C1: when a stored credential needs a refresh and the refresh attempt
raises, `_refresh_credentials` clears the stored record — but, contrary to
the claim, the `except` clause falls through to `return ResultsSuccess()`,
so the refresh step reports *Success*, and `_api_call` then crashes parsing
the cleared cache (`model_validate_json(None)` raises), so the current
call's outcome is an escaping exception rather than an `Error` dict. -/
theorem c1_refresh_failure_clears_store_but_returns_success :
    refresh_credentials c1Oauth (some c1Cred) = ⟨ResultsSuccessEmpty, none, false⟩
    ∧ is_success (refresh_credentials c1Oauth (some c1Cred)).result = true
    ∧ api_call c1Env httpAlwaysOk (some c1State) "GET" "https://api.atlassian.com" "/oauth/token/accessible-resources" =
        .error validationErrorMsg :=
  ⟨rfl, rfl, rfl⟩

/-- Server of the is-last-page scenario: every page is successful, carries
one value, and marks itself in the response body as *not* the last page. -/
def c3Fetch : Nat → JSON := fun start =>
  ResultsSuccess (.obj [("values", .arr [.num start]), ("isLastPage", .bool false)])

/-- C3: against a server whose response bodies always say
`isLastPage: false`, `list_jsm_service_projects` nevertheless stops after
the first page, because line 411 reads `isLastPage` from the outcome
wrapper (where the key never exists, so the default `True` applies) instead
of from the response body. -/
theorem c3_stops_after_first_page_despite_not_last :
    ∀ fuel : Nat,
      list_jsm_service_projects c3Fetch (fuel + 1) =
        some (.obj [("status", .str "success"), ("data", .arr [.num 0])]) :=
  fun _ => rfl

/-- A resolved tenant cache containing exactly one instance,
`https://a.example`. -/
def exCache : JSON :=
  .obj [("https://a.example", .obj [("id", .str "123"), ("name", .str "A")])]

/-- Process environment of the unknown-tenant and cached-tenant scenarios:
nothing configured, OAuth path (never reached, since the cache is
populated). -/
def c4Env : Env := ⟨none, none, none, none, oauthUnused⟩

/-- Session state with the one-entry tenant cache already populated. -/
def c4State : SessionState := ⟨fun _ => none, none, some exCache⟩

/-- C4: an unknown tenant reference yields an `Error`, but its message is
the uninterpolated template text from `auth.py` line 316 (the string
literal lacks the `f` prefix), so it names neither the unknown tenant nor
the known tenant keys — in particular it does not mention `a.example`. -/
theorem c4_unknown_tenant_message_not_interpolated :
    Except.map Prod.fst
        (jira_api_call c4Env httpAlwaysOk (some c4State) "https://b.example" "GET" "/rest/api/3/serverInfo") =
      .ok (ResultsError unknownInstanceMsg)
    ∧ mentions unknownInstanceMsg "a.example" = false
    ∧ mentions unknownInstanceMsg "b.example" = false :=
  ⟨rfl, by decide, by decide⟩

/-- C8: with no stored credential and no already-granted credential
available from the consent capability, the refresh step requests consent,
returns `Pending`, and writes nothing under the token cache key. -/
theorem c8_no_credential_requests_consent_and_pends (env : OAuthEnv)
    (h : env.authResponse = none) :
    refresh_credentials env none = ⟨ResultsPending, none, true⟩ := by
  simp [refresh_credentials, h]

/-- Witness for C8 at a concrete environment. -/
theorem c8_no_credential_requests_consent_and_pends_witness :
    refresh_credentials ⟨false, .error "", none⟩ none = ⟨ResultsPending, none, true⟩ :=
  c8_no_credential_requests_consent_and_pends ⟨false, .error "", none⟩ rfl

/-- C5: at any iteration of either pagination loop, if the page call's
outcome is not a success (an `Error` or `Pending` dict), the loop returns
exactly that outcome, discarding nothing into a fabricated success — the
accumulated items are never returned. -/
theorem c5_abort_propagates_outcome (fetch : Nat → JSON) (fuel start : Nat) (acc : List JSON)
    (h : is_success (fetch start) = false) :
    list_jira_issues_loop fetch (fuel + 1) start acc = some (fetch start)
    ∧ list_jsm_service_projects_loop fetch (fuel + 1) start acc = some (fetch start) := by
  constructor <;> simp [list_jira_issues_loop, list_jsm_service_projects_loop, h]

/-- Server of the abort scenario: page 1 succeeds with one issue out of a
reported five, and every later page call returns an `Error`. -/
def c5Fetch : Nat → JSON := fun start =>
  if start = 0 then ResultsSuccess (.obj [("issues", .arr [.num 7]), ("total", .num 5)])
  else ResultsError "boom"

/-- Witness for C5: after a successful first page the failing second page's
`Error` is what both loops return. -/
theorem c5_abort_propagates_outcome_witness :
    list_jira_issues_loop c5Fetch 2 1 [.num 7] = some (c5Fetch 1)
    ∧ list_jsm_service_projects_loop c5Fetch 2 1 [.num 7] = some (c5Fetch 1) :=
  c5_abort_propagates_outcome c5Fetch 1 1 [.num 7] rfl

/-- C9: with no statically configured instance and a populated (nonempty)
tenant cache, `auth_list_jira_instances` issues zero HTTP requests, leaves
the session state unchanged, and returns a `Success` carrying exactly the
cached map — so two sequential calls return identical maps. -/
theorem c9_cached_tenant_listing_idempotent (env : Env) (http : Http)
    (st : SessionState) (m : JSON)
    (henv : getenvTruthy env.jira_instance = false)
    (hcache : st.instanceCache = some m) (htruthy : m.truthy = true) :
    auth_list_jira_instances env http (some st) = .ok (ResultsSuccess m, some st, 0) := by
  simp [auth_list_jira_instances, henv, hcache, Option.getD, htruthy]

/-- Witness for C9 at the one-entry cache. -/
theorem c9_cached_tenant_listing_idempotent_witness :
    auth_list_jira_instances c4Env httpAlwaysOk (some c4State) =
      .ok (ResultsSuccess exCache, some c4State, 0) :=
  c9_cached_tenant_listing_idempotent c4Env httpAlwaysOk c4State exCache rfl rfl rfl

/-- The PAT-or-OAuth fallback always yields one of its two strategies. -/
theorem pat_or_oauth_cases (env : Env) :
    (∃ u p, pat_or_oauth env = .pat u p) ∨ pat_or_oauth env = .oauth := by
  unfold pat_or_oauth
  cases hu : env.jira_username with
  | none => simp
  | some u =>
    cases hp : env.jira_api_token with
    | none => simp
    | some p =>
      by_cases h : u.isEmpty || p.isEmpty
      · simp [h]
      · exact Or.inl ⟨u, p, by simp [h]⟩

/-- C7: per call exactly one strategy is selected, in the fixed precedence
order delegated bearer token, then static PAT, then managed OAuth: every
call yields one of the three strategies; a truthy delegated token wins
regardless of the PAT variables; with no truthy delegated token, nonempty
username and API token variables win over OAuth; and with the delegated
configuration absent and the PAT variables absent, OAuth is chosen. -/
theorem c7_strategy_selection_precedence :
    (∀ env ctx, (∃ t, select_strategy env ctx = .delegated t)
        ∨ (∃ u p, select_strategy env ctx = .pat u p)
        ∨ select_strategy env ctx = .oauth)
    ∧ (∀ env ctx t, delegated_token env ctx = some t → t.isEmpty = false →
        select_strategy env ctx = .delegated t)
    ∧ (∀ env ctx u p, getenvTruthy (delegated_token env ctx) = false →
        env.jira_username = some u → u.isEmpty = false →
        env.jira_api_token = some p → p.isEmpty = false →
        select_strategy env ctx = .pat u p)
    ∧ (∀ env ctx, env.agentspace_auth_id = none →
        env.jira_username = none → env.jira_api_token = none →
        select_strategy env ctx = .oauth) := by
  refine ⟨?_, ?_, ?_, ?_⟩
  · intro env ctx
    unfold select_strategy
    cases hd : delegated_token env ctx with
    | none =>
      rcases pat_or_oauth_cases env with ⟨u, p, h⟩ | h
      · exact Or.inr (Or.inl ⟨u, p, h⟩)
      · exact Or.inr (Or.inr h)
    | some t =>
      by_cases ht : t.isEmpty
      · rcases pat_or_oauth_cases env with ⟨u, p, h⟩ | h
        · exact Or.inr (Or.inl ⟨u, p, by simp [ht, h]⟩)
        · exact Or.inr (Or.inr (by simp [ht, h]))
      · exact Or.inl ⟨t, by simp [ht]⟩
  · intro env ctx t hd ht
    simp [select_strategy, hd, ht]
  · intro env ctx u p hd hu hue hp hpe
    have hrest : pat_or_oauth env = .pat u p := by
      simp [pat_or_oauth, hu, hp, hue, hpe]
    unfold select_strategy
    cases hdel : delegated_token env ctx with
    | none => exact hrest
    | some t =>
      have ht : t.isEmpty = true := by
        rw [hdel] at hd
        simpa [getenvTruthy] using hd
      simp [ht, hrest]
  · intro env ctx ha hu hp
    have hdel : delegated_token env ctx = none := by
      simp [delegated_token, ha]
    simp [select_strategy, hdel, pat_or_oauth, hu]

/-- Session state of the delegated-token scenario: the platform stored a
token under `temp:aid`. -/
def c7State : SessionState := ⟨fun k => if k = "temp:aid" then some "tok" else none, none, none⟩

/-- Environment with delegated-token configuration *and* PAT variables set:
the delegated token must win. -/
def c7EnvDelegated : Env := ⟨some "aid", some "user", some "patToken", none, oauthUnused⟩

/-- Environment with only the PAT variables set. -/
def c7EnvPat : Env := ⟨none, some "user", some "patToken", none, oauthUnused⟩

/-- Environment with neither delegated-token configuration nor PAT
variables. -/
def c7EnvOauth : Env := ⟨none, none, none, none, oauthUnused⟩

/-- Witness for C7: the three precedence conjuncts at concrete
environments. -/
theorem c7_strategy_selection_precedence_witness :
    select_strategy c7EnvDelegated (some c7State) = .delegated "tok"
    ∧ select_strategy c7EnvPat none = .pat "user" "patToken"
    ∧ select_strategy c7EnvOauth none = .oauth :=
  ⟨c7_strategy_selection_precedence.2.1 c7EnvDelegated (some c7State) "tok" rfl rfl,
   c7_strategy_selection_precedence.2.2.1 c7EnvPat none "user" "patToken" rfl rfl rfl rfl rfl,
   c7_strategy_selection_precedence.2.2.2 c7EnvOauth none rfl rfl rfl⟩

/-- Environment of the transport-failure scenario: PAT mode. -/
def c2Env : Env := ⟨none, some "user", some "secret", none, oauthUnused⟩

/-- A network on which every request fails at the transport level. -/
def httpDown : Http := fun _ _ _ => .transportError "Connection refused"

/-- C2 counterexample: in PAT mode, a transport-level failure is *not*
returned as an `Error` outcome — the `except` clause of `_api_call` catches
only `httpx.HTTPStatusError`, so the `httpx.RequestError` raised by
`client.request` escapes the executor boundary as an exception. -/
theorem c2_transport_failure_escapes_boundary :
    api_call c2Env httpDown none "GET" "https://a.example" "/rest/api/3/serverInfo" =
      .error "Connection refused" :=
  rfl

/-- A delegated or PAT invocation of `_api_call` goes straight to the
request step, with the session state untouched. -/
theorem api_call_request_non_oauth (env : Env) (http : Http) (ctx : Option SessionState)
    (method endpoint path : String)
    (hsel : select_strategy env ctx ≠ .oauth) :
    api_call env http ctx method endpoint path = doRequest http method endpoint path ctx := by
  unfold api_call
  cases h : select_strategy env ctx with
  | delegated t => rfl
  | pat u p => rfl
  | oauth => exact absurd h hsel

/-- An OAuth invocation of `_api_call` whose refresh step succeeds leaving
a stored credential with a nonempty access token also reaches the request
step, with the token cache updated to that credential. -/
theorem api_call_request_oauth_fresh (env : Env) (http : Http) (st : SessionState)
    (creds : Cred) (t : String) (method endpoint path : String)
    (hsel : select_strategy env (some st) = .oauth)
    (hr : is_success (refresh_credentials env.oauth st.tokenCache).result = true)
    (hstore : (refresh_credentials env.oauth st.tokenCache).store = some creds)
    (htok : creds.access_token = some t) (hte : t.isEmpty = false) :
    api_call env http (some st) method endpoint path =
      doRequest http method endpoint path (some { st with tokenCache := some creds }) := by
  unfold api_call
  rw [hsel]
  simp only [hr, if_true, hstore, htok, hte]
  simp

/-- C2 amended: for every invocation whose strategy resolution reaches the
HTTP request — a delegated or PAT invocation, or an OAuth invocation whose
refresh step succeeds leaving a stored credential with a nonempty access
token — a non-2xx HTTP status is returned as an `Error` outcome whose
message carries the endpoint and the underlying exception text (the method
is not included), a 2xx response is returned as a `Success`, and a
transport-level failure propagates out of the executor as a raised
exception. -/
theorem c2_amended_executor_outcomes :
    (∀ (env : Env) (http : Http) (ctx : Option SessionState)
        (method endpoint path msg : String),
      select_strategy env ctx ≠ .oauth →
      (http method endpoint path = .statusError msg →
        api_call env http ctx method endpoint path =
          .ok (ResultsError ("An error occurred while calling Jira API endpoint " ++ endpoint ++ ": " ++ msg),
               ctx, 1))
      ∧ (http method endpoint path = .transportError msg →
        api_call env http ctx method endpoint path = .error msg)
      ∧ (∀ body, http method endpoint path = .ok (some body) →
        api_call env http ctx method endpoint path = .ok (ResultsSuccess body, ctx, 1)))
    ∧ (∀ (env : Env) (http : Http) (st : SessionState) (creds : Cred)
        (t : String) (method endpoint path msg : String),
      select_strategy env (some st) = .oauth →
      is_success (refresh_credentials env.oauth st.tokenCache).result = true →
      (refresh_credentials env.oauth st.tokenCache).store = some creds →
      creds.access_token = some t → t.isEmpty = false →
      (http method endpoint path = .statusError msg →
        api_call env http (some st) method endpoint path =
          .ok (ResultsError ("An error occurred while calling Jira API endpoint " ++ endpoint ++ ": " ++ msg),
               some { st with tokenCache := some creds }, 1))
      ∧ (http method endpoint path = .transportError msg →
        api_call env http (some st) method endpoint path = .error msg)
      ∧ (∀ body, http method endpoint path = .ok (some body) →
        api_call env http (some st) method endpoint path =
          .ok (ResultsSuccess body, some { st with tokenCache := some creds }, 1))) := by
  constructor
  · intro env http ctx method endpoint path msg hsel
    have hdo := api_call_request_non_oauth env http ctx method endpoint path hsel
    refine ⟨fun h => ?_, fun h => ?_, fun body h => ?_⟩ <;>
      rw [hdo] <;> simp [doRequest, h]
  · intro env http st creds t method endpoint path msg hsel hr hstore htok hte
    have hdo := api_call_request_oauth_fresh env http st creds t method endpoint path
      hsel hr hstore htok hte
    refine ⟨fun h => ?_, fun h => ?_, fun body h => ?_⟩ <;>
      rw [hdo] <;> simp [doRequest, h]

/-- Environment of the fresh-OAuth-credential scenario: nothing configured,
so the OAuth path is taken; the refresher reports no refresh needed. -/
def c2OauthFreshEnv : Env := ⟨none, none, none, none, ⟨false, .error "", none⟩⟩

/-- The stored, still-fresh credential of that scenario. -/
def c2FreshCred : Cred := ⟨some "fresh-token"⟩

/-- Session state of that scenario: the token cache holds the fresh
credential. -/
def c2OauthState : SessionState := ⟨fun _ => none, some c2FreshCred, none⟩

/-- Witness for C2 amended: a concrete 404 becomes an `Error` naming the
endpoint both in PAT mode and in OAuth mode with a fresh stored
credential. -/
theorem c2_amended_executor_outcomes_witness :
    api_call c2Env (fun _ _ _ => .statusError "404 Not Found") none "GET" "https://a.example" "/x" =
      .ok (ResultsError ("An error occurred while calling Jira API endpoint " ++ "https://a.example" ++ ": " ++ "404 Not Found"),
           none, 1)
    ∧ api_call c2OauthFreshEnv (fun _ _ _ => .statusError "404 Not Found") (some c2OauthState) "GET" "https://a.example" "/x" =
      .ok (ResultsError ("An error occurred while calling Jira API endpoint " ++ "https://a.example" ++ ": " ++ "404 Not Found"),
           some { c2OauthState with tokenCache := some c2FreshCred }, 1) :=
  ⟨(c2_amended_executor_outcomes.1 c2Env (fun _ _ _ => .statusError "404 Not Found") none
      "GET" "https://a.example" "/x" "404 Not Found" (by decide)).1 rfl,
   (c2_amended_executor_outcomes.2 c2OauthFreshEnv (fun _ _ _ => .statusError "404 Not Found")
      c2OauthState c2FreshCred "fresh-token" "GET" "https://a.example" "/x" "404 Not Found"
      rfl rfl rfl rfl rfl).1 rfl⟩

/-- Server of the three-page scenario: pages at offsets 0, 100 and 200 with
a reported total of 240. -/
def c6Fetch (p1 p2 p3 : List JSON) : Nat → JSON := fun start_at =>
  if start_at = 0 then ResultsSuccess (.obj [("issues", .arr p1), ("total", .num 240)])
  else if start_at = 100 then ResultsSuccess (.obj [("issues", .arr p2), ("total", .num 240)])
  else if start_at = 200 then ResultsSuccess (.obj [("issues", .arr p3), ("total", .num 240)])
  else ResultsError "unexpected offset"

/-- C6: three successful pages of 100, 100 and 40 issues with reported
total 240 produce a `Success` whose data is the 240-element concatenation
of the pages in order. -/
theorem c6_three_page_concatenation (p1 p2 p3 : List JSON)
    (h1 : p1.length = 100) (h2 : p2.length = 100) (h3 : p3.length = 40) :
    list_jira_issues (c6Fetch p1 p2 p3) 3 =
      some (.obj [("status", .str "success"), ("data", .arr (p1 ++ p2 ++ p3))])
    ∧ (p1 ++ p2 ++ p3).length = 240 := by
  have e1 : pageIssues (c6Fetch p1 p2 p3) 0 = p1 := rfl
  have e2 : pageIssues (c6Fetch p1 p2 p3) 100 = p2 := rfl
  have e3 : pageIssues (c6Fetch p1 p2 p3) 200 = p3 := rfl
  have t1 : pageTotal (c6Fetch p1 p2 p3) 0 = 240 := rfl
  have t2 : pageTotal (c6Fetch p1 p2 p3) 100 = 240 := rfl
  have t3 : pageTotal (c6Fetch p1 p2 p3) 200 = 240 := rfl
  constructor
  · show list_jira_issues_loop (c6Fetch p1 p2 p3) 3 0 [] = _
    rw [list_jira_issues_loop_continue (c6Fetch p1 p2 p3) 2 0 [] rfl (by rw [e1, h1, t1]; norm_num)]
    rw [e1, h1, List.nil_append, Nat.zero_add]
    rw [list_jira_issues_loop_continue (c6Fetch p1 p2 p3) 1 100 p1 rfl (by rw [e2, h2, t2]; norm_num)]
    rw [e2, h2]
    norm_num
    rw [list_jira_issues_loop_break (c6Fetch p1 p2 p3) 0 200 (p1 ++ p2) rfl (by rw [e3, h3, t3]; norm_num)]
    rw [e3, List.append_assoc]
  · simp [h1, h2, h3]

/-- Witness for C6 at concrete replicated pages. -/
theorem c6_three_page_concatenation_witness :
    list_jira_issues (c6Fetch (List.replicate 100 (JSON.num 1)) (List.replicate 100 (JSON.num 2)) (List.replicate 40 (JSON.num 3))) 3 =
      some (.obj [("status", .str "success"),
        ("data", .arr (List.replicate 100 (JSON.num 1) ++ List.replicate 100 (JSON.num 2) ++ List.replicate 40 (JSON.num 3)))])
    ∧ (List.replicate 100 (JSON.num 1) ++ List.replicate 100 (JSON.num 2) ++ List.replicate 40 (JSON.num 3)).length = 240 :=
  c6_three_page_concatenation (List.replicate 100 (JSON.num 1)) (List.replicate 100 (JSON.num 2))
    (List.replicate 40 (JSON.num 3)) (by simp) (by simp) (by simp)

/-- Server of the divergence scenario: every page is successful and carries
one issue, but reports a total of `offset + 2`, which stays forever ahead
of the accumulated count. -/
def c10BadFetch : Nat → JSON := fun s =>
  ResultsSuccess (.obj [("issues", .arr [.num 0]), ("total", .num ((s : Int) + 2))])

/-- Every page of the divergence server carries at least one issue, so the
server satisfies the claim's side condition. -/
def c10EveryPageNonempty : Prop := ∀ s : Nat, 1 ≤ (pageIssues c10BadFetch s).length

/-- Divergence of `list_jira_issues` on that server: the fuelled embedding
runs out of any amount of fuel, i.e. the source's `while True` loop never
terminates. -/
def c10Diverges : Prop := ∀ fuel : Nat, list_jira_issues c10BadFetch fuel = none

/-- On the divergence server the loop never returns, for any fuel, offset
and accumulator. -/
theorem c10BadFetch_loop_none :
    ∀ (fuel start : Nat) (acc : List JSON),
      list_jira_issues_loop c10BadFetch fuel start acc = none := by
  intro fuel
  induction fuel with
  | zero => intro start acc; rfl
  | succ n ih =>
    intro start acc
    rw [list_jira_issues_loop_continue c10BadFetch n start acc rfl ?_]
    · exact ih _ _
    · show (start : Int) + (pageIssues c10BadFetch start).length < pageTotal c10BadFetch start
      rw [show pageIssues c10BadFetch start = [.num 0] from rfl,
          show pageTotal c10BadFetch start = (start : Int) + 2 from rfl]
      simp

/-- C10 counterexample: a sequence of successful page responses in which
every response contains at least one issue, on which `list_jira_issues`
nevertheless does not terminate — the reported totals grow with the
offset, so the exit condition is never reached. -/
theorem c10_growing_totals_nontermination : c10EveryPageNonempty ∧ c10Diverges :=
  ⟨fun _ => Nat.le.refl, fun fuel => c10BadFetch_loop_none fuel 0 []⟩

/-- C10 amended, conjunct by conjunct: (1) `list_jira_issues` terminates
for every sequence of successful page responses in which each response
either reports a total no greater than the offset plus that page's issue
count, or contains at least one issue and reports a total bounded by a
fixed `B`; (2) on a successful page the loop exits exactly when the offset
plus the page's issue count reaches the reported total, returning the
accumulated concatenation; (3) otherwise it recurses with the offset
advanced by the page's issue count; (4) in particular a successful response
with an empty issue list and a total still above the offset leaves the
offset (and accumulator) unchanged. -/
theorem c10_amended_termination_and_exit_condition :
    (∀ (fetch : Nat → JSON) (B : Nat),
      (∀ s, is_success (fetch s) = true) →
      (∀ s, pageTotal fetch s ≤ (s : Int) + (pageIssues fetch s).length
        ∨ (1 ≤ (pageIssues fetch s).length ∧ pageTotal fetch s ≤ (B : Int))) →
      (list_jira_issues fetch (B + 1)).isSome = true)
    ∧ (∀ (fetch : Nat → JSON) (fuel start : Nat) (acc : List JSON),
        is_success (fetch start) = true →
        (start : Int) + (pageIssues fetch start).length ≥ pageTotal fetch start →
        list_jira_issues_loop fetch (fuel + 1) start acc =
          some (.obj [("status", .str "success"), ("data", .arr (acc ++ pageIssues fetch start))]))
    ∧ (∀ (fetch : Nat → JSON) (fuel start : Nat) (acc : List JSON),
        is_success (fetch start) = true →
        (start : Int) + (pageIssues fetch start).length < pageTotal fetch start →
        list_jira_issues_loop fetch (fuel + 1) start acc =
          list_jira_issues_loop fetch fuel (start + (pageIssues fetch start).length)
            (acc ++ pageIssues fetch start))
    ∧ (∀ (fetch : Nat → JSON) (fuel start : Nat) (acc : List JSON),
        is_success (fetch start) = true →
        pageIssues fetch start = [] →
        pageTotal fetch start > (start : Int) →
        list_jira_issues_loop fetch (fuel + 1) start acc =
          list_jira_issues_loop fetch fuel start acc) := by
  have term : ∀ (fetch : Nat → JSON) (B : Nat),
      (∀ s, is_success (fetch s) = true) →
      (∀ s, pageTotal fetch s ≤ (s : Int) + (pageIssues fetch s).length
        ∨ (1 ≤ (pageIssues fetch s).length ∧ pageTotal fetch s ≤ (B : Int))) →
      ∀ (fuel start : Nat) (acc : List JSON), (B : Int) ≤ (start : Int) + fuel →
        (list_jira_issues_loop fetch (fuel + 1) start acc).isSome = true := by
    intro fetch B hsucc hbound fuel
    induction fuel with
    | zero =>
      intro start acc h
      have hb : (start : Int) + (pageIssues fetch start).length ≥ pageTotal fetch start := by
        rcases hbound start with h1 | ⟨_, hB⟩
        · exact h1
        · have hBs : (B : Int) ≤ (start : Int) := by simpa using h
          have : pageTotal fetch start ≤ (start : Int) := le_trans hB hBs
          have hlen : (0 : Int) ≤ (pageIssues fetch start).length := by positivity
          omega
      rw [list_jira_issues_loop_break fetch 0 start acc (hsucc start) hb]
      rfl
    | succ n ih =>
      intro start acc h
      by_cases hb : (start : Int) + (pageIssues fetch start).length ≥ pageTotal fetch start
      · rw [list_jira_issues_loop_break fetch (n + 1) start acc (hsucc start) hb]
        rfl
      · push_neg at hb
        rw [list_jira_issues_loop_continue fetch (n + 1) start acc (hsucc start) hb]
        apply ih
        have hlen : 1 ≤ (pageIssues fetch start).length := by
          rcases hbound start with h1 | ⟨hl, _⟩
          · omega
          · exact hl
        push_cast
        push_cast at h
        omega
  refine ⟨?_, list_jira_issues_loop_break, list_jira_issues_loop_continue, ?_⟩
  · intro fetch B hsucc hbound
    exact term fetch B hsucc hbound B 0 [] (by simp)
  · intro fetch fuel start acc hs hempty htot
    have := list_jira_issues_loop_continue fetch fuel start acc hs (by rw [hempty]; simpa using htot)
    simpa [hempty] using this

/-- Witness for C10 amended: the bounded-total server that serves one page
of two issues with total 2 terminates within the derived fuel. -/
theorem c10_amended_termination_and_exit_condition_witness :
    (list_jira_issues (fun _ => ResultsSuccess (.obj [("issues", .arr [.num 0, .num 1]), ("total", .num 2)])) 3).isSome = true :=
  c10_amended_termination_and_exit_condition.1
    (fun _ => ResultsSuccess (.obj [("issues", .arr [.num 0, .num 1]), ("total", .num 2)])) 2
    (fun _ => rfl) (fun s => Or.inl (by
      rw [show pageTotal (fun _ => ResultsSuccess (.obj [("issues", .arr [.num 0, .num 1]), ("total", .num 2)])) s = 2 from rfl,
          show pageIssues (fun _ => ResultsSuccess (.obj [("issues", .arr [.num 0, .num 1]), ("total", .num 2)])) s = [.num 0, .num 1] from rfl]
      simp))
